import Mathlib

/-!
Shallow embedding of the two conversion scripts of this repository,
`src/convert_ppt_to_html.py` and `src/create_ppt.py`, together with
theorems settling the specification's claims about them.

Python string primitives (`str.strip`, `str.split`, `str.startswith`,
substring tests, single-character `str.replace`) are modelled as
structurally recursive functions on `List Char`, so that every
definition evaluates inside the kernel; each model is named `py...`
and documented next to its definition.  The python-pptx object model
(slides, shapes, text frames) is modelled by the `Shape` structure:
a shape optionally carries a direct plain-text attribute and a
structured text frame given by its paragraphs' texts, mirroring what
the scripts read from the library.
-/

/-- Characters of `l` with leading and trailing whitespace removed:
the char-list model of Python's `str.strip()`. -/
def trimChars (l : List Char) : List Char :=
  ((l.dropWhile (Char.isWhitespace)).reverse.dropWhile (Char.isWhitespace)).reverse

/-- Model of Python's `s.strip()`. -/
def pyStrip (s : String) : String :=
  String.mk (trimChars s.data)

/-- Split a character list at every occurrence of `sep`, keeping empty
pieces: the model of Python's `str.split(sep)` for a one-character
separator. -/
def splitChar (sep : Char) : List Char → List (List Char)
  | [] => [[]]
  | c :: cs =>
    let r := splitChar sep cs
    if c = sep then [] :: r
    else
      match r with
      | [] => [[c]]
      | h :: t => (c :: h) :: t

/-- Model of Python's `s.split('\n')`. -/
def pySplitNl (s : String) : List String :=
  (splitChar '\n' s.data).map String.mk

/-- Whether `p` is a prefix of the second list (character by character). -/
def matchesHere : List Char → List Char → Bool
  | [], _ => true
  | _ :: _, [] => false
  | p :: ps, c :: cs => p == c && matchesHere ps cs

/-- Model of Python's `s.startswith(p)`. -/
def pyStartsWith (s p : String) : Bool :=
  matchesHere p.data s.data

/-- Whether `needle` occurs as a contiguous run somewhere in the list. -/
def hasInfixFrom (needle : List Char) : List Char → Bool
  | [] => matchesHere needle []
  | c :: cs => matchesHere needle (c :: cs) || hasInfixFrom needle cs

/-- Model of Python's substring test `needle in hay`. -/
def pyIn (needle hay : String) : Bool :=
  hasInfixFrom needle.data hay.data

/-- Model of Python's whitespace `str.split()` (no argument): maximal
runs of non-whitespace characters, in order.  `cur` accumulates the
current run, reversed. -/
def wsGroupsAux (cur : List Char) : List Char → List (List Char)
  | [] => if cur = [] then [] else [cur.reverse]
  | c :: cs =>
    if c.isWhitespace then
      if cur = [] then wsGroupsAux [] cs
      else cur.reverse :: wsGroupsAux [] cs
    else wsGroupsAux (c :: cur) cs

/-- Model of Python's `s.split()` (split on whitespace runs, no empties). -/
def pySplitWs (s : String) : List String :=
  (wsGroupsAux [] s.data).map String.mk

/-- Model of Python's `'\n'.join(parts)` (also used for `' '.join`). -/
def pyJoin (sep : String) : List String → String
  | [] => ""
  | [s] => s
  | s :: rest => s ++ sep ++ pyJoin sep rest

/-- One pass of Python's `str.replace` for a single-character pattern:
every occurrence of `c` is rewritten to `rep`; the replacement text is
not rescanned within the same pass, exactly as `str.replace` behaves. -/
def replaceChar (c : Char) (rep : List Char) : List Char → List Char
  | [] => []
  | x :: xs => if x = c then rep ++ replaceChar c rep xs else x :: replaceChar c rep xs

/-- Tag remover of `clean_text` in `src/create_ppt.py:16`, the model of
`re.sub(r'<[^>]+>', '', text)`: a match is a `<`, then at least one
character other than `>`, then `>`; matches are removed left to right,
anything else is kept.  `pending = some buf` means scanning is inside a
potential tag opened by `<`, with `buf` holding (reversed) the
characters seen since. -/
def removeTagsAux (pending : Option (List Char)) : List Char → List Char
  | [] =>
    match pending with
    | none => []
    | some buf => '<' :: buf.reverse
  | c :: cs =>
    match pending with
    | none =>
      if c = '<' then removeTagsAux (some []) cs
      else c :: removeTagsAux none cs
    | some buf =>
      if c = '>' then
        if buf = [] then '<' :: '>' :: removeTagsAux none cs
        else removeTagsAux none cs
      else removeTagsAux (some (c :: buf)) cs

/-- clean_text from src/create_ppt.py:13: strips HTML tags, removes a
fixed set of emoji, normalises whitespace (`' '.join(text.split())`)
and strips the ends. -/
def clean_text (text : String) : String :=
  let text := String.mk (removeTagsAux none text.data)
  let text := ((((String.replace text ("🏥") ("")).replace ("📚") ("")).replace ("🏗️") ("")).replace ("📦") (""))
  let text := ((((String.replace text ("🛠️") ("")).replace ("🔍") ("")).replace ("💾") ("")).replace ("⚙️") (""))
  let text := ((((String.replace text ("🔧") ("")).replace ("🎨") ("")).replace ("📱") ("")).replace ("💼") (""))
  let text := (String.replace text ("🗄️") (""))
  let text := pyJoin (" ") (pySplitWs text)
  pyStrip text

/-- escape_html from src/convert_ppt_to_html.py:10: sequential
single-character replacements, ampersand first, then the four markup
characters; `if not text: return ""` is the empty-string test. -/
def escape_html (text : String) : String :=
  if text = "" then ""
  else
    String.mk
      (replaceChar '\'' (("&#39;").data)
        (replaceChar '\"' (("&quot;").data)
          (replaceChar '>' (("&gt;").data)
            (replaceChar '<' (("&lt;").data)
              (replaceChar '&' (("&amp;").data) text.data)))))

/-- One text-bearing shape of a slide, as the scripts read it from
python-pptx: `has_text_frame` is the library's `shape.has_text_frame`,
`text` is the direct plain-text attribute when the shape has one
(`hasattr(shape, "text")`), `text_frame` is the list of its
paragraphs' texts when the shape has a structured text frame, and
`shape_type` is the library's numeric shape-kind tag. -/
structure Shape where
  has_text_frame : Bool
  text : Option String
  text_frame : Option (List String)
  shape_type : Int
deriving DecidableEq

/-- get_text_from_shape from src/convert_ppt_to_html.py:22: prefer the
direct `text` attribute; otherwise join the text frame's paragraph
texts with newlines; otherwise the empty string. -/
def get_text_from_shape (shape : Shape) : String :=
  match shape.text with
  | some t => t
  | none =>
    match shape.text_frame with
    | some ps => pyJoin ("\n") ps
    | none => ""

/-- Loop body of get_slide_content (src/convert_ppt_to_html.py:38-49)
acting on the `(title, content)` accumulator: shapes without a text
frame or with blank text are skipped; a shape of `shape_type == 1`
assigns the title; otherwise a shape seen while the title is empty and
no content has been collected assigns the title; otherwise the text is
appended as a content block. -/
def slide_step (acc : String × List String) (shape : Shape) : String × List String :=
  if shape.has_text_frame then
    let text := get_text_from_shape shape
    if pyStrip text != "" then
      if shape.shape_type == 1 then
        (text, acc.2)
      else if acc.1 == "" && acc.2.length == 0 then
        (text, acc.2)
      else
        (acc.1, acc.2 ++ [text])
    else acc
  else acc

/-- get_slide_content from src/convert_ppt_to_html.py:33: fold the
per-shape step over the slide's shapes, starting from an empty title
and no content. -/
def get_slide_content (slide : List Shape) : String × List String :=
  slide.foldl slide_step ("", [])

/-- Whether a shape passes both guards of the loop in get_slide_content:
it has a text frame and its extracted text is non-blank after stripping. -/
def contributes (s : Shape) : Bool :=
  s.has_text_frame && (pyStrip (get_text_from_shape s) != "")

/-- Bullet-marker stripper of src/convert_ppt_to_html.py:259, the model
of `re.sub(r'^[•\-\*]\s*', '', line)`: anchored at the start, so at
most one glyph of `•`, `-`, `*` and the whitespace run after it are
removed. -/
def strip_bullet (line : String) : String :=
  match line.data with
  | [] => line
  | c :: cs =>
    if c = '•' ∨ c = '-' ∨ c = '*' then String.mk (cs.dropWhile (Char.isWhitespace))
    else line

/-- Bullet detection of src/convert_ppt_to_html.py:252: some non-blank
line whose stripped form starts with `•` or `-` (the `*` glyph is not
part of the detection, only of the stripping regex). -/
def has_bullet_line (lines : List String) : Bool :=
  (lines.filter (fun line => pyStrip line != "")).any
    (fun line => pyStartsWith (pyStrip line) ("•") || pyStartsWith (pyStrip line) ("-"))

/-- Rendering of one content block, the loop body of
src/convert_ppt_to_html.py:248-266: a blank block emits nothing; a
block with a detected bullet line becomes a `<ul>` with one `<li>` per
non-blank line (stripped, bullet marker removed, HTML-escaped);
otherwise each non-blank line becomes a `<p>` (unstripped, escaped). -/
def render_item (item : String) : List String :=
  if pyStrip item != "" then
    let lines := pySplitNl item
    if has_bullet_line lines then
      ["<ul>"] ++
        (lines.filterMap (fun line =>
          let line := pyStrip line
          if line != "" then
            some ("<li>" ++ escape_html (strip_bullet line) ++ "</li>")
          else none)) ++
      ["</ul>"]
    else
      (lines.filter (fun p => pyStrip p != "")).map
        (fun para => "<p>" ++ escape_html para ++ "</p>")
  else []

/-- Title-slide classification of src/convert_ppt_to_html.py:234:
first slide, last slide, or a title containing "Thank You" or
"Questions". -/
def is_title_slide (i n : Nat) (title : String) : Bool :=
  i == 1 || i == n || pyIn ("Thank You") title || pyIn ("Questions") title

/-- HTML lines emitted for one slide by the loop of
src/convert_ppt_to_html.py:230-269: the slide `div` (with the
`title-slide` class when classified as a title slide), the slide
number line, the `<h1>` or `<h2>` heading when the title is non-empty,
the rendered content blocks when there are any, and the closing
`</div>`. -/
def render_slide (i n : Nat) (title : String) (content : List String) : List String :=
  let is_t := is_title_slide i n title
  [("<div class=\"slide" ++ (if is_t then " title-slide" else "") ++ "\">"),
   ("<div class=\"slide-number\">Slide " ++ toString i ++ " of " ++ toString n ++ "</div>")] ++
  (if title != "" then
    [(if is_t then "<h1>" ++ escape_html title ++ "</h1>"
      else "<h2 class=\"slide-title\">" ++ escape_html title ++ "</h2>")]
   else []) ++
  (if content.isEmpty then []
   else ["<div class=\"slide-content\">"] ++ content.flatMap render_item ++ ["</div>"]) ++
  ["</div>"]

/-- One slide of the generated deck, as built by the three helper
functions of `src/create_ppt.py`: `add_title_slide` (layout 0, a title
and a subtitle placeholder), `add_content_slide` (layout 1, a title
and one body of bullet paragraphs), `add_two_column_slide` (layout 3,
a title and two columns of paragraphs). -/
inductive SlideSpec where
  | titleSlide (title subtitle : String)
  | contentSlide (title : String) (paragraphs : List String)
  | twoColumnSlide (title : String) (left right : List String)
deriving DecidableEq

/-- add_title_slide from src/create_ppt.py:26: the title and subtitle
are set verbatim (styling is out of the embedded state). -/
def add_title_slide (title subtitle : String) : SlideSpec :=
  SlideSpec.titleSlide title subtitle

/-- add_content_slide from src/create_ppt.py:44: the title is cleaned,
and each non-blank item is cleaned and added as a paragraph. -/
def add_content_slide (title : String) (content_items : List String) : SlideSpec :=
  SlideSpec.contentSlide (clean_text title)
    (content_items.filterMap (fun item =>
      if pyStrip item != "" then some (clean_text item) else none))

/-- add_two_column_slide from src/create_ppt.py:68: like a content
slide but with two paragraph columns.  The source defines it; whether
`create_presentation` ever calls it is what claim C3 is about. -/
def add_two_column_slide (title : String) (left_items right_items : List String) : SlideSpec :=
  SlideSpec.twoColumnSlide (clean_text title)
    (left_items.filterMap (fun item =>
      if pyStrip item != "" then some (clean_text item) else none))
    (right_items.filterMap (fun item =>
      if pyStrip item != "" then some (clean_text item) else none))

/-- tech_stack list of src/create_ppt.py:113. -/
def tech_stack : List String :=
  ["Runtime & Language: Node.js, TypeScript, ES2022",
   "Framework & Core: NitroStack, @nitrostack/core, @nitrostack/cli",
   "Database: MongoDB (v7.1.0), Connection Pooling",
   "Validation & Schema: Zod (v3.22.4), TypeScript Interfaces",
   "UI Framework: Next.js, React, TypeScript",
   "Utilities: dotenv, In-memory Cache"]

/-- arch_overview list of src/create_ppt.py:124. -/
def arch_overview : List String :=
  ["5-Layer Architecture",
   "Presentation Layer: Next.js Widgets (React-based UI)",
   "Application Layer: NitroStack MCP Server",
   "Business Logic Layer: Services (Query, Scoring, Recommendation)",
   "Data Access Layer: MongoDBService with Connection Pooling",
   "Data Layer: MongoDB Database with Collections & Indexes"]

/-- arch_layers list of src/create_ppt.py:135. -/
def arch_layers : List String :=
  ["Presentation Layer:",
   "• Next.js Widgets - React-based UI components",
   "• Widgets: insurance-list, insurance-suggestion, insurance-booking, booking-status-list",
   "• Hot module replacement for development",
   "",
   "Application Layer:",
   "• NitroStack MCP Server - Model Context Protocol server",
   "• Tools - Business logic endpoints",
   "• Resources - Data exposure endpoints",
   "• Prompts - Conversation templates"]

/-- arch_business list of src/create_ppt.py:149. -/
def arch_business : List String :=
  ["Business Logic Layer:",
   "• InsuranceTools - Main tool controller",
   "• InsuranceQueryBuilderService - MongoDB query construction",
   "• InsuranceScoringService - Plan matching algorithm",
   "• InsuranceRecommendationService - Recommendation generation",
   "• CacheService - In-memory caching",
   "• MetricsService - Performance monitoring",
   "",
   "Data Access Layer:",
   "• MongoDBService - Database connection management",
   "• Connection Pooling - Efficient connection reuse (min: 2, max: 10)",
   "• Index Management - Automatic index creation",
   "• Retry Logic - Automatic reconnection"]

/-- collections_intro list of src/create_ppt.py:167. -/
def collections_intro : List String :=
  ["Three Main Collections:",
   "1. Insurance Collection (Primary)",
   "2. Users Collection (Secondary)",
   "3. Bookings Collection (Secondary)"]

/-- insurance_collection list of src/create_ppt.py:175. -/
def insurance_collection : List String :=
  ["Insurance Collection:",
   "• Stores all insurance plan information",
   "• Key Fields: name, type, premium, coverage, policyNumber",
   "• Age Range: minAge, maxAge",
   "• Family: familyCoverage, maxFamilyMembers",
   "• Conditions: coversPreExisting, coveredConditions",
   "• Provider & Description",
   "",
   "Indexes:",
   "• Text index on name for search",
   "• Indexes on premium, age ranges, family coverage",
   "• Unique sparse index on policyNumber",
   "• Compound indexes for common queries"]

/-- users_collection list of src/create_ppt.py:192. -/
def users_collection : List String :=
  ["Users Collection:",
   "• Stores user account information",
   "• Key Fields: email (unique), name, phone, age, salary",
   "• Additional: designation, address, familyMembers",
   "• Timestamps: createdAt, updatedAt",
   "",
   "Indexes:",
   "• Unique index on email (primary key)",
   "• Text index on name for search",
   "• Indexes on age, salary, designation",
   "• Sparse unique index on phone",
   "• Index on createdAt for sorting"]

/-- bookings_collection list of src/create_ppt.py:208. -/
def bookings_collection : List String :=
  ["Bookings Collection:",
   "• Stores insurance booking records",
   "• References: userId, insurancePlanId, policyNumber",
   "• Status: status (pending/confirmed/cancelled/expired/active)",
   "• Financial: premium, coverageAmount",
   "• Dates: startDate, endDate",
   "• Payment: paymentStatus, paymentMethod, transactionId",
   "• Additional: notes, createdAt, updatedAt",
   "",
   "Indexes:",
   "• Index on userId (most common query)",
   "• Indexes on insurancePlanId, status, paymentStatus",
   "• Compound indexes for user bookings by status",
   "• Date range indexes for queries"]

/-- tools_intro list of src/create_ppt.py:227. -/
def tools_intro : List String :=
  ["Four Main Tools:",
   "1. list_insurance - Query Tool",
   "2. suggest_insurance_plan - AI Tool",
   "3. book_insurance_with_user - Transaction Tool",
   "4. list_booking_status_by_email - Query Tool"]

/-- list_insurance list of src/create_ppt.py:236. -/
def list_insurance : List String :=
  ["list_insurance Tool:",
   "Purpose: List and filter insurance plans",
   "Widget: insurance-list",
   "",
   "Input Parameters:",
   "• salary (Required) - Annual salary for affordability",
   "• familyMembers (Optional) - Number of family members",
   "• age (Optional, 0-120) - User age for age range matching",
   "• limit (Optional, default: 100) - Max records",
   "• skip (Optional, default: 0) - Pagination",
   "• filter (Optional) - Additional MongoDB filter",
   "",
   "Filtering Logic:",
   "• Premium ≤ 10% of annual salary",
   "• Family coverage matching",
   "• Age range validation",
   "• Custom MongoDB operators supported"]

/-- suggest_insurance list of src/create_ppt.py:257. -/
def suggest_insurance : List String :=
  ["suggest_insurance_plan Tool:",
   "Purpose: AI-powered insurance plan suggestions with match scoring",
   "Widget: insurance-suggestion",
   "",
   "Input Parameters:",
   "• age (Required, 0-120) - User age",
   "• salary (Required) - Annual salary",
   "• familyMembers (Required) - Number of family members",
   "• deficiencies (Optional) - Health deficiencies/pre-existing conditions",
   "• insuranceType (Optional) - Filter by type",
   "",
   "Scoring Algorithm (0-100 points):",
   "• Age Match: 30 points",
   "• Premium Affordability: 25 points",
   "• Family Coverage: 20 points",
   "• Pre-existing Conditions: 25 points",
   "• Specific Conditions: 15 points",
   "• Type Match: 10 points",
   "",
   "Returns: Top 5 plans sorted by match score"]

/-- book_insurance list of src/create_ppt.py:281. -/
def book_insurance : List String :=
  ["book_insurance_with_user Tool:",
   "Purpose: Create booking record and manage user account",
   "Widget: insurance-booking",
   "",
   "Input Parameters:",
   "• policyNumber (Required) - Insurance policy number",
   "• email (Required) - User email (validated)",
   "• name (Required) - User full name",
   "• phoneNumber (Required) - User phone number",
   "• paymentMethod (Optional) - Payment method",
   "• startDate (Optional) - ISO 8601 format",
   "• years (Optional, 1-50) - Coverage duration",
   "• transactionId (Optional) - Payment transaction ID",
   "• notes (Optional) - Additional notes",
   "",
   "Business Logic:",
   "• Validates insurance plan exists",
   "• Creates/updates user account",
   "• Creates booking with status=\'pending\'",
   "• Sets payment status based on transactionId",
   "• Calculates endDate from startDate + years"]

/-- list_booking list of src/create_ppt.py:306. -/
def list_booking : List String :=
  ["list_booking_status_by_email Tool:",
   "Purpose: Retrieve all bookings for a user by email",
   "Widget: booking-status-list",
   "",
   "Input Parameters:",
   "• email (Required) - User email address",
   "",
   "Business Logic:",
   "• Validates email format",
   "• Finds user by email (returns error if not found)",
   "• Retrieves all bookings for the user",
   "• Sorts by createdAt descending (most recent first)",
   "",
   "Response:",
   "• success - Boolean",
   "• user - User document",
   "• bookings - Array of all booking documents",
   "• count - Total number of bookings"]

/-- queries list of src/create_ppt.py:329. -/
def queries : List String :=
  ["MongoDB Query Optimization:",
   "• InsuranceQueryBuilderService constructs optimized queries",
   "• All queries leverage database indexes",
   "• Filters applied at database level",
   "• Pagination with skip/limit",
   "• Projection for necessary fields only",
   "• Input sanitization prevents injection attacks",
   "",
   "Query Types:",
   "1. List Insurance Query - Filters by salary, age, family",
   "2. Suggestion Query - Optimized for scoring algorithm",
   "3. Booking Queries - User lookup, plan lookup, status filtering"]

/-- cache_intro list of src/create_ppt.py:346. -/
def cache_intro : List String :=
  ["Cache Implementation:",
   "• Type: In-memory Map-based cache",
   "• Pattern: Singleton service",
   "• Storage: JavaScript Map<string, CacheEntry>",
   "• TTL: Configurable per entry, default 5 minutes",
   "",
   "Cache Operations:",
   "• get<T>(key) - Retrieve cached value",
   "• set<T>(key, value, ttl?) - Store value",
   "• getOrCompute<T>(key, computeFn, ttl?) - Cache or compute",
   "• delete(key) - Remove entry",
   "• clear() - Remove all entries"]

/-- cache_details list of src/create_ppt.py:362. -/
def cache_details : List String :=
  ["Cache TTL by Operation:",
   "• list_insurance: 5 minutes",
   "• suggest_insurance_plan: 5 minutes",
   "• search_insurance_names: 2 minutes",
   "",
   "Cache Key Generation:",
   "• Deterministic from input parameters",
   "• Parameters sorted alphabetically",
   "• Values JSON stringified",
   "• Format: \'prefix:param1:value1|param2:value2|...\'",
   "",
   "Cache Cleanup:",
   "• Automatic cleanup every 60 seconds",
   "• Lazy expiration on get() operations",
   "• Removes expired entries"]

/-- cache_benefits list of src/create_ppt.py:381. -/
def cache_benefits : List String :=
  ["Cache Benefits:",
   "• Performance: Reduces database queries by 60-80%",
   "• Latency: Cache hits return in <1ms vs 10-50ms for DB queries",
   "• Database Load: Significantly reduces load on MongoDB",
   "• Cost: Lower database operation costs",
   "",
   "Cache Flow:",
   "1. Request received with parameters",
   "2. Generate deterministic cache key",
   "3. Check cache for existing entry",
   "4. If cache hit and not expired, return cached data",
   "5. If cache miss, execute database query",
   "6. Store result in cache with TTL",
   "7. Return result to caller"]

/-- system_init list of src/create_ppt.py:400. -/
def system_init : List String :=
  ["System Initialization:",
   "1. Application Start - NitroStack CLI starts MCP server",
   "2. Module Loading - AppModule loads InsuranceModule",
   "3. MongoDB Initialization - Connection established",
   "4. Connection Pooling - Pool created (min: 2, max: 10)",
   "5. Index Creation - Automatic index creation for collections",
   "6. Service Initialization - CacheService, MetricsService as singletons",
   "7. Health Check Start - Monitoring every 30 seconds",
   "8. Ready State - Server ready to accept requests"]

/-- request_flow list of src/create_ppt.py:413. -/
def request_flow : List String :=
  ["Request Processing Flow:",
   "1. Request Received - MCP server receives tool invocation",
   "2. Input Validation - Zod schema validates parameters",
   "3. Input Sanitization - InputSanitizer sanitizes inputs",
   "4. Cache Check - CacheService checks for cached result",
   "5. Query Building - InsuranceQueryBuilderService builds query",
   "6. Database Query - MongoDBService executes using indexes",
   "7. Data Processing - Results processed (scoring, formatting)",
   "8. Cache Storage - Result stored in cache with TTL",
   "9. Metrics Recording - MetricsService records operation",
   "10. Response Return - Formatted response returned"]

/-- error_handling list of src/create_ppt.py:428. -/
def error_handling : List String :=
  ["Error Handling:",
   "• Custom Error Classes with codes and context",
   "• Error Types:",
   "  - DatabaseConnectionError - Connection failures",
   "  - DatabaseQueryError - Query execution failures",
   "  - InvalidInputError - Input validation failures",
   "  - ConfigurationError - Configuration issues",
   "",
   "Retry Logic:",
   "• Automatic reconnection with exponential backoff",
   "• Maximum 5 retry attempts",
   "• All errors tracked in MetricsService"]

/-- performance list of src/create_ppt.py:444. -/
def performance : List String :=
  ["Performance Optimizations:",
   "• Database Indexes: 20+ indexes across collections",
   "• Connection Pooling: Reuses connections (2-10)",
   "• Caching: In-memory cache reduces database load",
   "• Query Optimization: Filters at database level",
   "• Pagination: Efficient data retrieval with skip/limit",
   "• Lazy Loading: Collections initialized when needed",
   "",
   "Monitoring & Metrics:",
   "• MetricsService tracks: operation count, avg/min/max times",
   "• Error count and success rate percentage",
   "• Health Checks: MongoDB connection status, ping every 30s"]

/-- security list of src/create_ppt.py:460. -/
def security : List String :=
  ["Security Features:",
   "• Input Sanitization:",
   "  - Regex injection prevention",
   "  - String sanitization",
   "  - Number validation",
   "  - Filter object sanitization",
   "",
   "• Type Validation:",
   "  - Zod schemas validate all inputs",
   "",
   "• MongoDB Injection Prevention:",
   "  - Filter objects sanitized before query",
   "",
   "• Email Validation:",
   "  - Regex validation for email format"]

/-- core_services list of src/create_ppt.py:480. -/
def core_services : List String :=
  ["Core Services:",
   "• MongoDBService - Database connection, pooling, indexes (Singleton)",
   "• CacheService - In-memory caching with TTL (Singleton)",
   "• MetricsService - Operation tracking, monitoring (Singleton)",
   "• InsuranceQueryBuilderService - MongoDB query construction",
   "• InsuranceScoringService - Match score calculation",
   "• InsuranceRecommendationService - Recommendation generation"]

/-- configuration list of src/create_ppt.py:491. -/
def configuration : List String :=
  ["Configuration:",
   "• InsuranceConfig: Environment variable management with Zod",
   "",
   "Environment Variables:",
   "• MONGODB_URI - MongoDB connection string",
   "• MONGODB_DATABASE_NAME - Database name (default: \'Insurance\')",
   "• MONGODB_COLLECTION_NAME - Collection name (default: \'Insurance\')",
   "• MONGODB_MAX_POOL_SIZE - Max connections (default: 10)",
   "• MONGODB_MIN_POOL_SIZE - Min connections (default: 2)",
   "• MONGODB_CONNECT_TIMEOUT_MS - Connection timeout (default: 30000)",
   "• MONGODB_SERVER_SELECTION_TIMEOUT_MS - Server selection timeout (default: 5000)"]

/-- utilities list of src/create_ppt.py:506. -/
def utilities : List String :=
  ["Utilities:",
   "• InputSanitizer - Sanitizes strings, numbers, arrays, filter objects",
   "• ObjectIdUtil - Converts MongoDB ObjectIds to strings for JSON"]

/-- widgets list of src/create_ppt.py:514. -/
def widgets : List String :=
  ["Widgets (UI Components):",
   "Next.js-based React widgets for displaying tool results:",
   "",
   "• insurance-list - Displays list of insurance plans",
   "• insurance-suggestion - Shows suggested plans with scores",
   "• insurance-booking - Booking confirmation interface",
   "• booking-status-list - User booking history with status cards",
   "• calculator-result - Calculator tool result display",
   "• insurance-search-dropdown - Search dropdown component",
   "",
   "Widget Development:",
   "• Hot module replacement enabled for development"]

/-- summary list of src/create_ppt.py:531. -/
def summary : List String :=
  ["Key Highlights:",
   "• Modern Tech Stack: Node.js, TypeScript, MongoDB, Next.js",
   "• 5-Layer Architecture with clear separation of concerns",
   "• 3 MongoDB Collections with optimized indexes",
   "• 4 Main Tools for insurance management",
   "• Intelligent Caching System (60-80% query reduction)",
   "• Comprehensive Error Handling & Retry Logic",
   "• Performance Optimizations (20+ indexes, connection pooling)",
   "• Security Features (Input sanitization, injection prevention)",
   "• Monitoring & Metrics for operational insights"]

/-- create_presentation from src/create_ppt.py:102: the generated deck
as the ordered list of slides added to the presentation.  `now` stands
for `datetime.now().strftime('%B %d, %Y')` in the title slide's
subtitle.  Every slide is added by `add_title_slide` or
`add_content_slide`; `add_two_column_slide` is never called. -/
def create_presentation (now : String) : List SlideSpec :=
  [add_title_slide ("InsureMate Project Analysis")
     ("Comprehensive Insurance Management System\nTechnical Documentation\n\nGenerated: " ++ now ++ "\nAuthor: Geetha Charu Mathi"),
   add_content_slide ("Technology Stack") tech_stack,
   add_content_slide ("System Architecture") arch_overview,
   add_content_slide ("Architecture - Presentation & Application Layers") arch_layers,
   add_content_slide ("Architecture - Business Logic & Data Access") arch_business,
   add_content_slide ("MongoDB Collections") collections_intro,
   add_content_slide ("Insurance Collection") insurance_collection,
   add_content_slide ("Users Collection") users_collection,
   add_content_slide ("Bookings Collection") bookings_collection,
   add_content_slide ("Tools & Usage") tools_intro,
   add_content_slide ("Tool: list_insurance") list_insurance,
   add_content_slide ("Tool: suggest_insurance_plan") suggest_insurance,
   add_content_slide ("Tool: book_insurance_with_user") book_insurance,
   add_content_slide ("Tool: list_booking_status_by_email") list_booking,
   add_content_slide ("MongoDB Queries") queries,
   add_content_slide ("Cache Handling") cache_intro,
   add_content_slide ("Cache Details") cache_details,
   add_content_slide ("Cache Benefits & Flow") cache_benefits,
   add_content_slide ("System Initialization") system_init,
   add_content_slide ("Request Processing Flow") request_flow,
   add_content_slide ("Error Handling") error_handling,
   add_content_slide ("Performance & Monitoring") performance,
   add_content_slide ("Security Features") security,
   add_content_slide ("Core Services") core_services,
   add_content_slide ("Configuration") configuration,
   add_content_slide ("Utilities") utilities,
   add_content_slide ("Widgets (UI Components)") widgets,
   add_content_slide ("Summary") summary,
   add_title_slide ("Thank You") ("Questions & Discussion")]

/-- Number of two-column slides in a deck. -/
def twoColumnCount (slides : List SlideSpec) : Nat :=
  slides.countP (fun s =>
    match s with
    | SlideSpec.twoColumnSlide .. => true
    | _ => false)

/-- Number of content slides in a deck. -/
def contentSlideCount (slides : List SlideSpec) : Nat :=
  slides.countP (fun s =>
    match s with
    | SlideSpec.contentSlide .. => true
    | _ => false)

/-- Whether a slide is a title/subtitle slide. -/
def isTitleSubtitleSlide (s : SlideSpec) : Bool :=
  match s with
  | SlideSpec.titleSlide .. => true
  | _ => false

/-- Fixed input path of src/convert_ppt_to_html.py:289. -/
def input_file : String :=
  "/Users/wekanadmin/InsureMate/InsureMate_Project_Analysis.pptx"

/-- Fixed output path of src/convert_ppt_to_html.py:290. -/
def output_file : String :=
  "/Users/wekanadmin/InsureMate/InsureMate_Project_Analysis_Presentation.html"

/-- Observable effect of the HTML-generation script: a printed line or
a write of the file at a path. -/
inductive Event where
  | printed (line : String)
  | wroteFile (path : String)
deriving DecidableEq

/-- Effect trace of convert_pptx_to_html (src/convert_ppt_to_html.py:53-286).
Opening the presentation, `Presentation(pptx_path)`, is the fallible step and
is modelled by the `parse` argument (an exception carries its message); on
success the HTML text is assembled purely (its assembly raises nothing), then
the single write of the output file happens at the very end, and the slide
count is returned.  An exception therefore leaves a trace with no write. -/
def convert_pptx_to_html_run (parse : Except String (List (List Shape)))
    (output_path : String) : Except String (List Event × Nat) :=
  match parse with
  | Except.error e => Except.error e
  | Except.ok slides => Except.ok ([Event.wroteFile output_path], slides.length)

/-- The __main__ block of src/convert_ppt_to_html.py:288-302: two
greeting prints, then the conversion inside the single try/except; on
success the success messages follow the conversion's effects, on an
exception the error message and the traceback are printed and the
script simply ends — no further effect, in particular no cleanup or
write of the output file. -/
def script_main_run (parse : Except String (List (List Shape))) : List Event :=
  [Event.printed ("Converting PowerPoint to HTML..."),
   Event.printed ("Input: " ++ input_file)] ++
  (match convert_pptx_to_html_run parse output_file with
   | Except.ok (evs, slide_count) =>
     evs ++
     [Event.printed ("✓ Successfully converted " ++ toString slide_count ++ " slides"),
      Event.printed ("✓ Output: " ++ output_file)]
   | Except.error e =>
     [Event.printed ("✗ Error: " ++ e),
      Event.printed ("Traceback (most recent call last):")])

/-- A character not in the replacement text is gone from the output of
its own replacement pass. -/
theorem replaceChar_not_mem_self {c : Char} {rep : List Char} (hrep : c ∉ rep) :
    ∀ l : List Char, c ∉ replaceChar c rep l := by
  intro l
  induction l with
  | nil => simp [replaceChar]
  | cons x xs ih =>
    by_cases hx : x = c
    · simp only [replaceChar, if_pos hx, List.mem_append, not_or]
      exact ⟨hrep, ih⟩
    · simp only [replaceChar, if_neg hx, List.mem_cons, not_or]
      exact ⟨fun h => hx h.symm, ih⟩

/-- A replacement pass introduces no character that is neither in the
input nor in the replacement text. -/
theorem replaceChar_not_mem {a c : Char} {rep : List Char} (hrep : a ∉ rep) :
    ∀ l : List Char, a ∉ l → a ∉ replaceChar c rep l := by
  intro l
  induction l with
  | nil => intro _; simp [replaceChar]
  | cons x xs ih =>
    intro hl
    have hax : a ≠ x := fun h => hl (h ▸ List.mem_cons_self x xs)
    have hxs : a ∉ xs := fun h => hl (List.mem_cons_of_mem x h)
    by_cases hx : x = c
    · simp only [replaceChar, if_pos hx, List.mem_append, not_or]
      exact ⟨hrep, ih hxs⟩
    · simp only [replaceChar, if_neg hx, List.mem_cons, not_or]
      exact ⟨hax, ih hxs⟩

/-- C10: for every input string, the output of escape_html contains no
occurrence of the raw characters `<`, `>`, `"` or `'`: each pass
removes every occurrence of its own character, and no later
replacement text reintroduces one. -/
theorem escape_html_no_raw_specials (text : String) :
    ∀ ch ∈ (escape_html text).data,
      ch ≠ '<' ∧ ch ≠ '>' ∧ ch ≠ '\"' ∧ ch ≠ '\'' := by
  intro ch hch
  unfold escape_html at hch
  by_cases h0 : text = ""
  · rw [if_pos h0] at hch
    exact absurd hch (List.not_mem_nil ch)
  · rw [if_neg h0] at hch
    have hlt : '<' ∉ (escape_html text).data := by
      unfold escape_html
      rw [if_neg h0]
      exact replaceChar_not_mem (by decide) _
        (replaceChar_not_mem (by decide) _
          (replaceChar_not_mem (by decide) _
            (replaceChar_not_mem_self (by decide) _)))
    have hgt : '>' ∉ (escape_html text).data := by
      unfold escape_html
      rw [if_neg h0]
      exact replaceChar_not_mem (by decide) _
        (replaceChar_not_mem (by decide) _
          (replaceChar_not_mem_self (by decide) _))
    have hq : '\"' ∉ (escape_html text).data := by
      unfold escape_html
      rw [if_neg h0]
      exact replaceChar_not_mem (by decide) _
        (replaceChar_not_mem_self (by decide) _)
    have ha : '\'' ∉ (escape_html text).data := by
      unfold escape_html
      rw [if_neg h0]
      exact replaceChar_not_mem_self (by decide) _
    have hch' : ch ∈ (escape_html text).data := by
      unfold escape_html
      rw [if_neg h0]
      exact hch
    exact ⟨fun h => hlt (h ▸ hch'), fun h => hgt (h ▸ hch'),
           fun h => hq (h ▸ hch'), fun h => ha (h ▸ hch')⟩

/-- C10 witness: the character `b` survives escaping of `<b>` and is
none of the four raw specials. -/
theorem escape_html_no_raw_specials_witness :
    'b' ∈ (escape_html ("<b>")).data ∧
      ('b' ≠ '<' ∧ 'b' ≠ '>' ∧ 'b' ≠ '\"' ∧ 'b' ≠ '\'') :=
  ⟨by decide, escape_html_no_raw_specials ("<b>") 'b' (by decide)⟩

/-- C4: escaping the spec's example `<b>&"'</b>` yields exactly
`&lt;b&gt;&amp;&quot;&#39;&lt;/b&gt;`, and that output contains none
of the raw characters `<`, `>`, `"`, `'` that would still need
escaping. -/
theorem escape_html_example_exact :
    escape_html ("<b>&\"\'</b>") = "&lt;b&gt;&amp;&quot;&#39;&lt;/b&gt;" ∧
    ∀ ch ∈ ("&lt;b&gt;&amp;&quot;&#39;&lt;/b&gt;").data,
      ch ≠ '<' ∧ ch ≠ '>' ∧ ch ≠ '\"' ∧ ch ≠ '\'' := by
  constructor
  · decide
  · decide

/-- A shape failing either loop guard (no text frame, or blank text)
leaves the accumulator of get_slide_content unchanged. -/
theorem slide_step_of_not_contributes {s : Shape} (h : contributes s = false)
    (acc : String × List String) : slide_step acc s = acc := by
  unfold contributes at h
  unfold slide_step
  by_cases hf : s.has_text_frame = true
  · rw [hf] at h
    simp only [Bool.true_and] at h
    simp [hf, h]
  · have hf' : s.has_text_frame = false := by
      revert hf
      cases s.has_text_frame <;> simp
    simp [hf']

/-- Folding the step over shapes that all fail a loop guard changes
nothing. -/
theorem foldl_slide_step_skip :
    ∀ (l : List Shape), (∀ t ∈ l, contributes t = false) →
      ∀ acc : String × List String, List.foldl slide_step acc l = acc := by
  intro l
  induction l with
  | nil => intro _ _; rfl
  | cons t ts ih =>
    intro h acc
    rw [List.foldl_cons, slide_step_of_not_contributes (h t (List.mem_cons_self t ts))]
    exact ih (fun u hu => h u (List.mem_cons_of_mem t hu)) acc

/-- From the empty accumulator, a contributing shape always becomes
the title with no content, through either title branch. -/
theorem slide_step_first {s : Shape} (h : contributes s = true) :
    slide_step ("", []) s = (get_text_from_shape s, []) := by
  unfold contributes at h
  have hf : s.has_text_frame = true := by
    revert h
    cases s.has_text_frame <;> simp
  rw [hf, Bool.true_and] at h
  unfold slide_step
  by_cases h1 : (s.shape_type == 1) = true
  · simp [hf, h, h1]
  · have h1' : (s.shape_type == 1) = false := by
      revert h1
      cases s.shape_type == 1 <;> simp
    simp [hf, h, h1']

/-- C5: a slide whose only contributing shape (text frame present,
text non-blank) is `s` yields `s`'s text as the title and an empty
content list, whatever non-contributing shapes surround it. -/
theorem single_text_shape_is_title (pre post : List Shape) (s : Shape)
    (hpre : ∀ t ∈ pre, contributes t = false)
    (hpost : ∀ t ∈ post, contributes t = false)
    (hs : contributes s = true) :
    get_slide_content (pre ++ s :: post) = (get_text_from_shape s, []) := by
  unfold get_slide_content
  rw [List.foldl_append, foldl_slide_step_skip pre hpre, List.foldl_cons,
      slide_step_first hs, foldl_slide_step_skip post hpost]

/-- C5 witness: a slide with one blank shape, one contributing shape
and one shape without a text frame. -/
theorem single_text_shape_is_title_witness :
    get_slide_content
        ([Shape.mk true (some ("   ")) none 2] ++
          (Shape.mk true (some ("Only Title")) none 2) ::
          [Shape.mk false (some ("ignored")) none 2]) =
      (get_text_from_shape (Shape.mk true (some ("Only Title")) none 2), []) :=
  single_text_shape_is_title _ _ _ (by decide) (by decide) (by decide)

/-- While the title is non-empty, shapes whose kind is not the title
placeholder never change it, and type-1 shapes with blank text are
skipped; so the title is stable under such a tail. -/
theorem foldl_title_stable :
    ∀ (l : List Shape),
      (∀ t ∈ l, t.shape_type = 1 → t.has_text_frame = true →
        pyStrip (get_text_from_shape t) = "") →
      ∀ acc : String × List String, acc.1 ≠ "" →
        (List.foldl slide_step acc l).1 = acc.1 := by
  intro l
  induction l with
  | nil => intro _ _ _; rfl
  | cons t ts ih =>
    intro h acc hacc
    rw [List.foldl_cons]
    have hstep : slide_step acc t = acc ∨
        slide_step acc t = (acc.1, acc.2 ++ [get_text_from_shape t]) := by
      unfold slide_step
      by_cases hf : t.has_text_frame = true
      · by_cases hb : (pyStrip (get_text_from_shape t) != "") = true
        · by_cases h1 : (t.shape_type == 1) = true
          · exfalso
            have := h t (List.mem_cons_self t ts) (by simpa using h1) hf
            rw [this] at hb
            simp at hb
          · have h1' : (t.shape_type == 1) = false := by
              revert h1
              cases t.shape_type == 1 <;> simp
            have h2 : (acc.1 == "" && acc.2.length == 0) = false := by
              have : (acc.1 == "") = false := by
                simpa [beq_iff_eq] using hacc
              simp [this]
            simp [hf, hb, h1', h2]
        · have hb' : (pyStrip (get_text_from_shape t) != "") = false := by
            revert hb
            cases pyStrip (get_text_from_shape t) != "" <;> simp
          simp [hf, hb']
      · have hf' : t.has_text_frame = false := by
          revert hf
          cases t.has_text_frame <;> simp
        simp [hf']
    have htail := ih (fun u hu => h u (List.mem_cons_of_mem t hu))
    rcases hstep with he | he
    · rw [he]
      exact htail acc hacc
    · rw [he]
      exact htail _ hacc

/-- C1 (amended): title assignment for title-placeholder shapes is
last-match-wins, not first-match-wins; when the first shape is a
contributing title placeholder and no later shape is a contributing
title placeholder, the slide's title is the first shape's text. -/
theorem first_title_placeholder_wins_if_unique (s : Shape) (rest : List Shape)
    (hf : s.has_text_frame = true)
    (ht : s.shape_type = 1)
    (hnb : pyStrip (get_text_from_shape s) ≠ "")
    (hrest : ∀ t ∈ rest, t.shape_type = 1 → t.has_text_frame = true →
      pyStrip (get_text_from_shape t) = "") :
    (get_slide_content (s :: rest)).1 = get_text_from_shape s := by
  unfold get_slide_content
  rw [List.foldl_cons]
  have hfirst : slide_step ("", []) s = (get_text_from_shape s, []) := by
    apply slide_step_first
    unfold contributes
    rw [hf, Bool.true_and]
    exact bne_iff_ne.mpr hnb
  rw [hfirst]
  have hne : get_text_from_shape s ≠ "" := by
    intro h
    apply hnb
    rw [h]
    rfl
  exact foldl_title_stable rest hrest _ hne

/-- C1 witness: title placeholder first, then an ordinary body shape
and a blank title placeholder; the title is the first shape's text. -/
theorem first_title_placeholder_wins_if_unique_witness :
    (get_slide_content
        [Shape.mk true (some ("Deck Title")) none 1,
         Shape.mk true (some ("Body text")) none 2,
         Shape.mk true (some ("   ")) none 1]).1 =
      get_text_from_shape (Shape.mk true (some ("Deck Title")) none 1) :=
  first_title_placeholder_wins_if_unique _ _ (by decide) (by decide) (by decide)
    (by decide)

/-- C1 counterexample: the first shape is a contributing title
placeholder with text `Real Title`, yet a later title placeholder
reassigns the title, so the slide's title is not the first shape's
text: the claim's first-match-wins reading fails on the code, whose
`shape_type == 1` branch overwrites any earlier title. -/
theorem title_reassigned_by_later_placeholder :
    (Shape.mk true (some ("Real Title")) none 1).shape_type = 1 ∧
    contributes (Shape.mk true (some ("Real Title")) none 1) = true ∧
    (get_slide_content
        [Shape.mk true (some ("Real Title")) none 1,
         Shape.mk true (some ("Later Placeholder")) none 1]).1 =
      "Later Placeholder" ∧
    (get_slide_content
        [Shape.mk true (some ("Real Title")) none 1,
         Shape.mk true (some ("Later Placeholder")) none 1]).1 ≠
      get_text_from_shape (Shape.mk true (some ("Real Title")) none 1) := by
  refine ⟨rfl, by decide, by decide, by decide⟩

/-- C7: text extraction prefers the direct plain-text attribute,
otherwise joins the text frame's paragraph texts with newlines; and a
shape that fails the loop guards (in particular one whose extracted
text is blank) contributes neither to the title nor to the content
blocks of get_slide_content. -/
theorem text_extraction_and_blank_shapes_ignored :
    (∀ (s : Shape) (t : String), s.text = some t → get_text_from_shape s = t) ∧
    (∀ (s : Shape) (ps : List String), s.text = none → s.text_frame = some ps →
      get_text_from_shape s = pyJoin ("\n") ps) ∧
    (∀ (pre post : List Shape) (s : Shape), contributes s = false →
      get_slide_content (pre ++ s :: post) = get_slide_content (pre ++ post)) := by
  refine ⟨?_, ?_, ?_⟩
  · intro s t h
    unfold get_text_from_shape
    rw [h]
  · intro s ps h h'
    unfold get_text_from_shape
    rw [h, h']
  · intro pre post s h
    unfold get_slide_content
    rw [List.foldl_append, List.foldl_append, List.foldl_cons,
        slide_step_of_not_contributes h]

/-- C7 witness: a direct-text shape, a paragraph-joining shape and the
removal of a blank shape, each at concrete inputs. -/
theorem text_extraction_and_blank_shapes_ignored_witness :
    get_text_from_shape (Shape.mk true (some ("Direct")) none 2) = "Direct" ∧
    get_text_from_shape (Shape.mk true none (some (["p1", "p2"])) 2) =
      pyJoin ("\n") ["p1", "p2"] ∧
    get_slide_content
        ([Shape.mk true (some ("T")) none 1] ++
          (Shape.mk true (some (" \n ")) none 2) :: [Shape.mk true (some ("B")) none 2]) =
      get_slide_content
        ([Shape.mk true (some ("T")) none 1] ++ [Shape.mk true (some ("B")) none 2]) :=
  ⟨text_extraction_and_blank_shapes_ignored.1 _ _ rfl,
   text_extraction_and_blank_shapes_ignored.2.1 _ _ rfl rfl,
   text_extraction_and_blank_shapes_ignored.2.2 _ _ _ (by decide)⟩

/-- One step of the fold preserves the invariant that every collected
content block is non-blank: the only branch that extends the content
list appends a text that just passed the non-blank guard. -/
theorem slide_step_snd_nonblank {acc : String × List String} {t : Shape}
    (hacc : ∀ b ∈ acc.2, pyStrip b ≠ "") :
    ∀ b ∈ (slide_step acc t).2, pyStrip b ≠ "" := by
  unfold slide_step
  by_cases hf : t.has_text_frame = true
  · by_cases hb : (pyStrip (get_text_from_shape t) != "") = true
    · by_cases h1 : (t.shape_type == 1) = true
      · simpa [hf, hb, h1] using hacc
      · have h1' : (t.shape_type == 1) = false := by
          revert h1
          cases t.shape_type == 1 <;> simp
        by_cases h2 : (acc.1 == "" && acc.2.length == 0) = true
        · simpa [hf, hb, h1', h2] using hacc
        · have h2' : (acc.1 == "" && acc.2.length == 0) = false := by
            revert h2
            cases acc.1 == "" && acc.2.length == 0 <;> simp
          simp only [hf, hb, h1', h2', if_true, if_false, Bool.false_eq_true]
          intro b hbmem
          rcases List.mem_append.mp hbmem with hmem | hmem
          · exact hacc b hmem
          · have : b = get_text_from_shape t := by simpa using hmem
            rw [this]
            exact bne_iff_ne.mp hb
    · have hb' : (pyStrip (get_text_from_shape t) != "") = false := by
        revert hb
        cases pyStrip (get_text_from_shape t) != "" <;> simp
      simpa [hf, hb'] using hacc
  · have hf' : t.has_text_frame = false := by
      revert hf
      cases t.has_text_frame <;> simp
    simpa [hf'] using hacc

/-- The fold keeps every collected content block non-blank. -/
theorem foldl_snd_nonblank :
    ∀ (l : List Shape) (acc : String × List String),
      (∀ b ∈ acc.2, pyStrip b ≠ "") →
      ∀ b ∈ (List.foldl slide_step acc l).2, pyStrip b ≠ "" := by
  intro l
  induction l with
  | nil => intro acc h; simpa using h
  | cons t ts ih =>
    intro acc h
    rw [List.foldl_cons]
    exact ih _ (slide_step_snd_nonblank h)

/-- C8: for every slide, every block in the content list returned by
get_slide_content is non-blank after stripping (the title is a single
string by the very type of the result). -/
theorem content_blocks_nonblank (slide : List Shape) (b : String)
    (hb : b ∈ (get_slide_content slide).2) : pyStrip b ≠ "" := by
  unfold get_slide_content at hb
  exact foldl_snd_nonblank slide ("", []) (by simp) b hb

/-- C8 witness: the second contributing shape of a concrete slide ends
up in the content list and is non-blank. -/
theorem content_blocks_nonblank_witness :
    "Body A" ∈ (get_slide_content
        [Shape.mk true (some ("T")) none 1,
         Shape.mk true (some ("Body A")) none 2,
         Shape.mk true (some ("Body B")) none 2]).2 ∧
    pyStrip ("Body A") ≠ "" :=
  ⟨by decide,
   content_blocks_nonblank
     [Shape.mk true (some ("T")) none 1,
      Shape.mk true (some ("Body A")) none 2,
      Shape.mk true (some ("Body B")) none 2] ("Body A") (by decide)⟩

/-- The bullet loop of the renderer, written as filter-then-map: one
`<li>` per line whose stripped form is non-blank. -/
theorem filterMap_li (lines : List String) (f : String → String) :
    (lines.filterMap (fun line =>
      let line := pyStrip line
      if line != "" then some (f line) else none)) =
    (lines.filter (fun l => pyStrip l != "")).map (fun l => f (pyStrip l)) := by
  induction lines with
  | nil => rfl
  | cons x xs ih =>
    by_cases h : (pyStrip x != "") = true
    · simp only [List.filterMap_cons, List.filter_cons, h, if_pos, List.map_cons]
      rw [ih]
    · have h' : (pyStrip x != "") = false := by
        revert h
        cases pyStrip x != "" <;> simp
      simp only [List.filterMap_cons, List.filter_cons, h', List.map_cons]
      simpa using ih

/-- C2 (amended): for a non-blank content block with at least one
non-blank line whose stripped form starts with `•` or `-` (the glyphs
the code actually detects; `*` is only stripped, not detected), the
renderer emits exactly one `<li>` per non-blank line, each line
stripped, its leading bullet marker removed, and HTML-escaped. -/
theorem bullet_block_renders_li_per_line (item : String)
    (hnb : pyStrip item ≠ "")
    (hbul : ∃ line ∈ pySplitNl item, pyStrip line ≠ "" ∧
      (pyStartsWith (pyStrip line) ("•") = true ∨
       pyStartsWith (pyStrip line) ("-") = true)) :
    render_item item =
      ["<ul>"] ++
      ((pySplitNl item).filter (fun l => pyStrip l != "")).map
        (fun l => "<li>" ++ escape_html (strip_bullet (pyStrip l)) ++ "</li>") ++
      ["</ul>"] := by
  have hb : has_bullet_line (pySplitNl item) = true := by
    rcases hbul with ⟨line, hmem, hne, hsw⟩
    unfold has_bullet_line
    rw [List.any_eq_true]
    refine ⟨line, List.mem_filter.mpr ⟨hmem, bne_iff_ne.mpr hne⟩, ?_⟩
    rcases hsw with h | h <;> simp [h]
  unfold render_item
  rw [if_pos (bne_iff_ne.mpr hnb), if_pos hb,
      filterMap_li (pySplitNl item)
        (fun l => "<li>" ++ escape_html (strip_bullet l) ++ "</li>")]

/-- C2 witness: a two-line bullet block at a concrete input. -/
theorem bullet_block_renders_li_per_line_witness :
    render_item ("• Alpha\n• Beta") =
      ["<ul>"] ++
      ((pySplitNl ("• Alpha\n• Beta")).filter (fun l => pyStrip l != "")).map
        (fun l => "<li>" ++ escape_html (strip_bullet (pyStrip l)) ++ "</li>") ++
      ["</ul>"] :=
  bullet_block_renders_li_per_line ("• Alpha\n• Beta") (by decide) (by decide)

/-- C2 counterexample: a block whose only line starts with `*` after
trimming is rendered as a paragraph, not as a list item: the code's
bullet detection looks only for `•` and `-`, so the claim's `*` case
fails. -/
theorem star_bullet_rendered_as_paragraph :
    pyStartsWith (pyStrip ("* starred line")) ("*") = true ∧
    pyStrip ("* starred line") ≠ "" ∧
    render_item ("* starred line") = ["<p>* starred line</p>"] ∧
    (∀ s ∈ render_item ("* starred line"), pyStartsWith s ("<li>") = false) := by
  refine ⟨by decide, by decide, by decide, by decide⟩

/-- C3 counterexample: the generated deck contains no two-column slide
at all — `add_two_column_slide` is defined but `create_presentation`
never calls it — so the deck does not contain exactly one. -/
theorem no_two_column_slide_in_deck :
    twoColumnCount (create_presentation ("October 12, 2026")) = 0 ∧
    ¬ twoColumnCount (create_presentation ("October 12, 2026")) = 1 := by
  have h0 : twoColumnCount (create_presentation ("October 12, 2026")) = 0 := rfl
  refine ⟨h0, ?_⟩
  rw [h0]
  decide

/-- C3 (amended): for any generation date, the deck built by
create_presentation opens with the title/subtitle slide, closes with
the Thank You title slide, holds 27 content slides in between, and
contains no two-column slide. -/
theorem deck_structure (now : String) :
    (create_presentation now).head? =
      some (SlideSpec.titleSlide ("InsureMate Project Analysis")
        ("Comprehensive Insurance Management System\nTechnical Documentation\n\nGenerated: " ++
          now ++ "\nAuthor: Geetha Charu Mathi")) ∧
    (create_presentation now).getLast? =
      some (SlideSpec.titleSlide ("Thank You") ("Questions & Discussion")) ∧
    contentSlideCount (create_presentation now) = 27 ∧
    twoColumnCount (create_presentation now) = 0 := by
  refine ⟨rfl, rfl, rfl, rfl⟩

/-- C9: whatever exception the conversion raises, the script's single
outer guard catches it: the run's trace prints the error message and a
traceback, contains no file write (of the output file or any other
path), and after the handler nothing else happens — in particular no
partial-file cleanup event exists in the model, since the source has
no cleanup code. -/
theorem conversion_error_caught_no_output (msg : String) :
    (∀ p : String, Event.wroteFile p ∉ script_main_run (Except.error msg)) ∧
    Event.printed ("✗ Error: " ++ msg) ∈ script_main_run (Except.error msg) ∧
    Event.printed ("Traceback (most recent call last):") ∈
      script_main_run (Except.error msg) ∧
    script_main_run (Except.error msg) =
      [Event.printed ("Converting PowerPoint to HTML..."),
       Event.printed ("Input: " ++ input_file),
       Event.printed ("✗ Error: " ++ msg),
       Event.printed ("Traceback (most recent call last):")] := by
  refine ⟨?_, ?_, ?_, rfl⟩
  · intro p
    unfold script_main_run convert_pptx_to_html_run
    simp
  · unfold script_main_run convert_pptx_to_html_run
    simp
  · unfold script_main_run convert_pptx_to_html_run
    simp

/-- Every line emitted for a content block starts with `<ul>`, `<li>`,
`</ul>` or `<p>`, so its first two characters are never `<h` — it is
neither heading line. -/
theorem render_item_data_take (item : String) :
    ∀ s ∈ render_item item, s.data.take 2 ≠ ['<', 'h'] := by
  intro s hs
  unfold render_item at hs
  by_cases h1 : (pyStrip item != "") = true
  · rw [if_pos h1] at hs
    by_cases h2 : has_bullet_line (pySplitNl item) = true
    · rw [if_pos h2] at hs
      rcases List.mem_append.mp hs with hs' | hs'
      · rcases List.mem_append.mp hs' with hs'' | hs''
        · have he : s = "<ul>" := by simpa using hs''
          rw [he]
          decide
        · rcases List.mem_filterMap.mp hs'' with ⟨line, _, hsome⟩
          by_cases h3 : (pyStrip line != "") = true
          · simp only [h3, if_pos] at hsome
            have hseq : "<li>" ++ escape_html (strip_bullet (pyStrip line)) ++ "</li>" = s := by
              simpa using hsome
            rw [← hseq, String.data_append, String.data_append, List.append_assoc,
                List.take_append_of_le_length (by decide)]
            decide
          · simp [h3] at hsome
      · have he : s = "</ul>" := by simpa using hs'
        rw [he]
        decide
    · rw [if_neg h2] at hs
      rcases List.mem_map.mp hs with ⟨para, _, heq⟩
      rw [← heq, String.data_append, String.data_append, List.append_assoc,
          List.take_append_of_le_length (by decide)]
      decide
  · rw [if_neg h1] at hs
    exact absurd hs (List.not_mem_nil s)

/-- First three characters of the slide-number line. -/
theorem slide_number_take3 (i n : Nat) :
    (("<div class=\"slide-number\">Slide " ++ toString i ++ " of " ++
      toString n ++ "</div>").data.take 3) = ['<', 'd', 'i'] := by
  rw [String.data_append, String.data_append, String.data_append, String.data_append,
      List.append_assoc, List.append_assoc, List.append_assoc,
      List.take_append_of_le_length (by decide)]
  decide

/-- A list whose first two characters are not `<h` also does not have
first three characters `<h` followed by anything. -/
theorem take3_ne_of_take2 {l : List Char} {c : Char}
    (h : l.take 2 ≠ ['<', 'h']) : l.take 3 ≠ ['<', 'h', c] := by
  intro h3
  apply h
  have h2 : (l.take 3).take 2 = l.take 2 := by
    rw [List.take_take]
    norm_num
  rw [← h2, h3]
  rfl

/-- The `<h1>` heading line appears in a rendered slide exactly when
the slide is classified as a title slide (for a non-empty title): the
`<h2>` branch and every other emitted line differ from it within their
first three characters. -/
theorem h1_mem_render_slide_iff (i n : Nat) (title : String) (content : List String)
    (ht : title ≠ "") :
    (("<h1>" ++ escape_html title ++ "</h1>") ∈ render_slide i n title content) ↔
      is_title_slide i n title = true := by
  have htt : (title != "") = true := bne_iff_ne.mpr ht
  have hh1 : ("<h1>" ++ escape_html title ++ "</h1>").data.take 3 = ['<', 'h', '1'] := by
    rw [String.data_append, String.data_append, List.append_assoc,
        List.take_append_of_le_length (by decide)]
    decide
  constructor
  · intro hmem
    by_cases hb : is_title_slide i n title = true
    · exact hb
    exfalso
    have hbf : is_title_slide i n title = false := by
      revert hb
      cases is_title_slide i n title <;> simp
    simp only [render_slide, hbf, htt, Bool.false_eq_true, if_false, if_true,
      List.cons_append, List.nil_append, List.mem_cons, List.mem_append,
      List.mem_singleton] at hmem
    rcases hmem with he | he | he | hmem3 | he | h0
    · have h' := hh1
      rw [he] at h'
      exact absurd h' (by decide)
    · have h' := hh1
      rw [he] at h'
      rw [slide_number_take3 i n] at h'
      exact absurd h' (by decide)
    · have h' := hh1
      rw [he] at h'
      rw [String.data_append, String.data_append, List.append_assoc,
          List.take_append_of_le_length (by decide)] at h'
      exact absurd h' (by decide)
    · by_cases hc : content.isEmpty = true
      · rw [if_pos hc] at hmem3
        exact absurd hmem3 (List.not_mem_nil _)
      · rw [if_neg hc] at hmem3
        rcases List.mem_cons.mp hmem3 with he | hmem4
        · have h' := hh1
          rw [he] at h'
          exact absurd h' (by decide)
        · rcases List.mem_append.mp hmem4 with hmem5 | he
          · rcases List.mem_flatMap.mp hmem5 with ⟨blk, _, hmem6⟩
            exact take3_ne_of_take2 (render_item_data_take blk _ hmem6) hh1
          · have he' : "<h1>" ++ escape_html title ++ "</h1>" = "</div>" := by
              simpa using he
            have h' := hh1
            rw [he'] at h'
            exact absurd h' (by decide)
    · have h' := hh1
      rw [he] at h'
      exact absurd h' (by decide)
    · exact absurd h0 (List.not_mem_nil _)
  · intro hb
    simp only [render_slide, hb, htt, if_true, List.cons_append, List.nil_append]
    simp

/-- The `<h2 class="slide-title">` heading line appears in a rendered
slide exactly when the slide is not classified as a title slide (for a
non-empty title): the `<h1>` branch and every other emitted line
differ from it within their first three characters. -/
theorem h2_mem_render_slide_iff (i n : Nat) (title : String) (content : List String)
    (ht : title ≠ "") :
    (("<h2 class=\"slide-title\">" ++ escape_html title ++ "</h2>") ∈
        render_slide i n title content) ↔
      is_title_slide i n title = false := by
  have htt : (title != "") = true := bne_iff_ne.mpr ht
  have hh2 : ("<h2 class=\"slide-title\">" ++ escape_html title ++
      "</h2>").data.take 3 = ['<', 'h', '2'] := by
    rw [String.data_append, String.data_append, List.append_assoc,
        List.take_append_of_le_length (by decide)]
    decide
  constructor
  · intro hmem
    by_cases hb : is_title_slide i n title = false
    · exact hb
    exfalso
    have hbt : is_title_slide i n title = true := by
      revert hb
      cases is_title_slide i n title <;> simp
    simp only [render_slide, hbt, htt, if_true,
      List.cons_append, List.nil_append, List.mem_cons, List.mem_append,
      List.mem_singleton] at hmem
    rcases hmem with he | he | he | hmem3 | he | h0
    · have h' := hh2
      rw [he] at h'
      exact absurd h' (by decide)
    · have h' := hh2
      rw [he] at h'
      rw [slide_number_take3 i n] at h'
      exact absurd h' (by decide)
    · have h' := hh2
      rw [he] at h'
      rw [String.data_append, String.data_append, List.append_assoc,
          List.take_append_of_le_length (by decide)] at h'
      exact absurd h' (by decide)
    · by_cases hc : content.isEmpty = true
      · rw [if_pos hc] at hmem3
        exact absurd hmem3 (List.not_mem_nil _)
      · rw [if_neg hc] at hmem3
        rcases List.mem_cons.mp hmem3 with he | hmem4
        · have h' := hh2
          rw [he] at h'
          exact absurd h' (by decide)
        · rcases List.mem_append.mp hmem4 with hmem5 | he
          · rcases List.mem_flatMap.mp hmem5 with ⟨blk, _, hmem6⟩
            exact take3_ne_of_take2 (render_item_data_take blk _ hmem6) hh2
          · have he' : "<h2 class=\"slide-title\">" ++ escape_html title ++
                "</h2>" = "</div>" := by
              simpa using he
            have h' := hh2
            rw [he'] at h'
            exact absurd h' (by decide)
    · have h' := hh2
      rw [he] at h'
      exact absurd h' (by decide)
    · exact absurd h0 (List.not_mem_nil _)
  · intro hb
    simp only [render_slide, hb, htt, Bool.false_eq_true, if_false, if_true,
      List.cons_append, List.nil_append]
    simp

/-- The opening line of a rendered slide carries the `title-slide`
class exactly when the slide is classified as a title slide. -/
theorem render_slide_head (i n : Nat) (title : String) (content : List String) :
    ((render_slide i n title content).head? =
      some ("<div class=\"slide title-slide\">")) ↔
      is_title_slide i n title = true := by
  have hh : (render_slide i n title content).head? =
      some ("<div class=\"slide" ++
        (if is_title_slide i n title then " title-slide" else "") ++ "\">") := by
    simp only [render_slide, List.cons_append, List.head?_cons]
  rw [hh]
  by_cases hb : is_title_slide i n title = true
  · rw [hb]
    exact ⟨fun _ => rfl, fun _ => by decide⟩
  · have hbf : is_title_slide i n title = false := by
      revert hb
      cases is_title_slide i n title <;> simp
    rw [hbf]
    constructor
    · intro h
      exact absurd h (by decide)
    · intro h
      exact Bool.noConfusion h

/-- C6: a slide is rendered in the distinguished title style — the
`title-slide` class on its opening div, and (for a non-empty title)
an `<h1>` heading — precisely when it is the first slide, the last
slide, or its title contains "Thank You" or "Questions"; otherwise
(for a non-empty title) it is rendered in the standard style, with the
`<h2 class="slide-title">` heading. -/
theorem title_style_iff (i n : Nat) (title : String) (content : List String) :
    (((render_slide i n title content).head? =
        some ("<div class=\"slide title-slide\">")) ↔
      (i = 1 ∨ i = n ∨ pyIn ("Thank You") title = true ∨
        pyIn ("Questions") title = true)) ∧
    (title ≠ "" →
      ((("<h1>" ++ escape_html title ++ "</h1>") ∈ render_slide i n title content) ↔
        (i = 1 ∨ i = n ∨ pyIn ("Thank You") title = true ∨
          pyIn ("Questions") title = true))) ∧
    (title ≠ "" →
      ((("<h2 class=\"slide-title\">" ++ escape_html title ++ "</h2>") ∈
          render_slide i n title content) ↔
        ¬(i = 1 ∨ i = n ∨ pyIn ("Thank You") title = true ∨
          pyIn ("Questions") title = true))) := by
  have hcond : is_title_slide i n title = true ↔
      (i = 1 ∨ i = n ∨ pyIn ("Thank You") title = true ∨
        pyIn ("Questions") title = true) := by
    unfold is_title_slide
    simp [Bool.or_eq_true, beq_iff_eq, or_assoc]
  have hcond' : is_title_slide i n title = false ↔
      ¬(i = 1 ∨ i = n ∨ pyIn ("Thank You") title = true ∨
        pyIn ("Questions") title = true) := by
    rw [← hcond]
    cases is_title_slide i n title <;> simp
  exact ⟨(render_slide_head i n title content).trans hcond,
         fun ht => (h1_mem_render_slide_iff i n title content ht).trans hcond,
         fun ht => (h2_mem_render_slide_iff i n title content ht).trans hcond'⟩
